import Mathlib

/-!
# Verification of the yfusion Yelp Fusion API client

Shallow embedding, in Lean 4, of the query-parameter builder, request
construction and response decoding of the `yfusion` Go package
(business search, business details, phone search, business reviews),
together with theorems settling the specification's claims about them.

Modelling conventions:
* Go `*T` optional fields become `Option T`.
* Go `float64` values become exact rationals `ℚ`; the `%f` rendering of
  `fmt.Sprintf` (fixed six decimal places) is modelled by `fmtFloat6`.
* Go `int` values become `ℤ` (the claims exercise no overflow).
* Fallible functions returning `(T, error)` become `Except String T`,
  carrying the error message.
* Go strings are Lean `String`s; `url.QueryEscape` works on the UTF-8
  bytes of the string, as in `net/url`.
-/

set_option maxRecDepth 8192

namespace YFusion

/-! ## Byte-level string helpers (net/url, strings, fmt) -/

/-- Upper-case hexadecimal digit, as used by `net/url`'s escaper
(`"0123456789ABCDEF"`). -/
def hexDigitUpper (n : Nat) : Char :=
  if n < 10 then Char.ofNat (48 + n) else Char.ofNat (55 + n)

/-- UTF-8 encoding of a character, as the list of its byte values.
Go strings are byte strings; `url.QueryEscape` escapes byte by byte. -/
def utf8Bytes (c : Char) : List Nat :=
  let n := c.toNat
  if n < 0x80 then [n]
  else if n < 0x800 then
    [0xC0 + n / 0x40, 0x80 + n % 0x40]
  else if n < 0x10000 then
    [0xE0 + n / 0x1000, 0x80 + n / 0x40 % 0x40, 0x80 + n % 0x40]
  else
    [0xF0 + n / 0x40000, 0x80 + n / 0x1000 % 0x40, 0x80 + n / 0x40 % 0x40, 0x80 + n % 0x40]

/-- Bytes `url.QueryEscape` leaves untouched (`shouldEscape` with
`encodeQueryComponent`): ASCII alphanumerics and `-`, `_`, `.`, `~`. -/
def isQueryUnreserved (b : Nat) : Bool :=
  (0x41 ≤ b && b ≤ 0x5A) || (0x61 ≤ b && b ≤ 0x7A) || (0x30 ≤ b && b ≤ 0x39) ||
    b == 0x2D || b == 0x5F || b == 0x2E || b == 0x7E

/-- Escape one byte as `url.QueryEscape` does: unreserved bytes pass
through, a space becomes `+`, everything else becomes `%XX`. -/
def escapeQueryByte (b : Nat) : List Char :=
  if isQueryUnreserved b then [Char.ofNat b]
  else if b == 0x20 then ['+']
  else ['%', hexDigitUpper (b / 16), hexDigitUpper (b % 16)]

/-- `url.QueryEscape` from `net/url`. -/
def queryEscape (s : String) : String :=
  String.mk (((s.data.map utf8Bytes).flatten.map escapeQueryByte).flatten)

/-- Whitespace recognised by Go's `unicode.IsSpace` (used by
`strings.TrimSpace`). -/
def isGoSpace (c : Char) : Bool :=
  let n := c.toNat
  n == 9 || n == 10 || n == 11 || n == 12 || n == 13 || n == 32 ||
    n == 0x85 || n == 0xA0 || n == 0x1680 || (0x2000 ≤ n && n ≤ 0x200A) ||
    n == 0x2028 || n == 0x2029 || n == 0x202F || n == 0x205F || n == 0x3000

/-- `strings.TrimSpace`. -/
def goTrimSpace (s : String) : String :=
  String.mk (((s.data.dropWhile isGoSpace).reverse.dropWhile isGoSpace).reverse)

/-- Decimal rendering of an integer, as `fmt.Sprintf("%d", i)`. -/
def intStr (i : ℤ) : String := toString i

/-- Rendering of a boolean, as `fmt.Sprintf("%v", b)`. -/
def boolStr (b : Bool) : String := if b then "true" else "false"

/-- Zero-pad a natural number to six digits (the fractional part of a
`%f` rendering). -/
def pad6 (n : Nat) : String :=
  let s := toString n
  String.mk (List.replicate (6 - s.length) '0') ++ s

/-- `fmt.Sprintf("%f", x)`: fixed-point rendering with six decimal
places, as used for latitude and longitude.  The value `num/den` scaled
by `10^6` is rounded to the nearest integer, ties to even (the rounding
`strconv` applies when formatting with a fixed precision); the
computation stays on the numerator and denominator so that it reduces
definitionally. -/
def fmtFloat6 (q : ℚ) : String :=
  let scaled : ℤ := q.num * 1000000
  let den : ℤ := (q.den : ℤ)
  let f : ℤ := scaled.fdiv den
  let r : ℤ := scaled - f * den
  let n : ℤ :=
    if 2 * r < den then f
    else if 2 * r > den then f + 1
    else if f % 2 = 0 then f else f + 1
  let sign := if q.num < 0 then "-" else ""
  sign ++ toString (n.natAbs / 1000000) ++ "." ++ pad6 (n.natAbs % 1000000)

/-! ## BusinessSearchParams (business_search.go) -/

/-- `BusinessSearchParams` - options for the Business Search route.
Every field is a nilable pointer in the source, hence an `Option` here. -/
structure BusinessSearchParams where
  term       : Option String := none
  location   : Option String := none
  latitude   : Option ℚ := none
  longitude  : Option ℚ := none
  radius     : Option ℤ := none
  categories : Option String := none
  locale     : Option String := none
  limit      : Option ℤ := none
  offset     : Option ℤ := none
  sortBy     : Option String := none
  price      : Option String := none
  openNow    : Option Bool := none
  openAt     : Option ℤ := none
  attributes : Option String := none
deriving DecidableEq

/-- `getLocOrLatLong` - location/latitude/longitude clause of the query
string.  Errors when all three of Location, Latitude and Longitude are
nil; the location clause, when present, comes first; the lat/long clause
is appended only when both halves are present. -/
def getLocOrLatLong (bus : BusinessSearchParams) : Except String String :=
  match bus.location, bus.latitude, bus.longitude with
  | none, none, none =>
    .error "error missing required fields: Location or (Latitude and Longitude)"
  | _, _, _ =>
    let sb := ""
    let sb := match bus.location with
      | some l => sb ++ "location=" ++ queryEscape l
      | none => sb
    let sb := match bus.latitude, bus.longitude with
      | some la, some lo =>
        (if sb.length > 0 then sb ++ "&" else sb) ++
          "latitude=" ++ fmtFloat6 la ++ "&longitude=" ++ fmtFloat6 lo
      | _, _ => sb
    .ok sb

/-- `getOpenAtOrNow` - open_now/open_at clause.  Errors when both are
set; otherwise renders whichever is present, or the empty string. -/
def getOpenAtOrNow (bus : BusinessSearchParams) : Except String String :=
  match bus.openAt, bus.openNow with
  | some _, some _ => .error "cannot set both open_at and open_now parameters"
  | _, some b => .ok ("open_now=" ++ boolStr b)
  | some i, none => .ok ("open_at=" ++ intStr i)
  | none, none => .ok ""

/-- `Params` - render the set `BusinessSearchParams` fields as a query
param string (no leading `?`).  Each absent field contributes nothing;
each present field appends `&<key>=<rendered value>` in the source's
fixed order. -/
def Params (bs : BusinessSearchParams) : Except String String :=
  match getLocOrLatLong bs with
  | .error err => .error err
  | .ok locString =>
    let sb := locString
    let sb := sb ++ (match bs.term with
      | some t => "&term=" ++ queryEscape t
      | none => "")
    let sb := sb ++ (match bs.radius with
      | some r => "&radius=" ++ intStr r
      | none => "")
    let sb := sb ++ (match bs.categories with
      | some c => "&categories=" ++ queryEscape c
      | none => "")
    let sb := sb ++ (match bs.locale with
      | some l => "&locale=" ++ queryEscape l
      | none => "")
    let sb := sb ++ (match bs.limit with
      | some l => "&limit=" ++ intStr l
      | none => "")
    let sb := sb ++ (match bs.offset with
      | some o => "&offset=" ++ intStr o
      | none => "")
    let sb := sb ++ (match bs.sortBy with
      | some s => "&sort_by=" ++ queryEscape s
      | none => "")
    let sb := sb ++ (match bs.price with
      | some p => "&price=" ++ queryEscape p
      | none => "")
    match getOpenAtOrNow bs with
    | .error err => .error err
    | .ok openClause =>
      let sb := if openClause ≠ "" then sb ++ "&" ++ openClause else sb
      let sb := sb ++ (match bs.attributes with
        | some a => "&attributes=" ++ queryEscape a
        | none => "")
      .ok sb

/-! ## JSON values and the decoding collaborator (encoding/json)

The spec treats the JSON codec as an external collaborator; the decoders
below model `encoding/json` unmarshalling into the package's typed
records: unknown object members are ignored, absent members leave the
zero value, `null` leaves the zero value (and becomes `none` for pointer
fields), and a member of the wrong shape is a decoding error (`none`).
Number literals are modelled by their exact rational value. -/

/-- A decoded JSON value.  Objects keep their members in order, since
`encoding/json` assigns sequentially (a later member matching the same
field overwrites an earlier one). -/
inductive Json where
  | null : Json
  | bool (b : Bool) : Json
  | num (q : ℚ) : Json
  | str (s : String) : Json
  | arr (elems : List Json) : Json
  | obj (members : List (String × Json)) : Json

/-- ASCII case folding, modelling the case-insensitive member-name match
of `encoding/json`. -/
def foldCase (s : String) : String :=
  String.mk (s.data.map fun c =>
    if 'A' ≤ c && c ≤ 'Z' then Char.ofNat (c.toNat + 32) else c)

/-- The JSON value assigned to a struct field named `key`: the last
object member whose name matches `key` up to ASCII case, or `none` when
no member matches. -/
def jLookup (members : List (String × Json)) (key : String) : Option Json :=
  (members.filter fun p => foldCase p.1 == foldCase key).getLast?.map (·.2)

/-- Decode a string field: absent or `null` leaves the zero value `""`. -/
def dString : Option Json → Option String
  | none => some ""
  | some .null => some ""
  | some (.str s) => some s
  | some _ => none

/-- Decode an `int` field: absent or `null` leaves `0`; a fractional
number is a decoding error. -/
def dIntZ : Option Json → Option ℤ
  | none => some 0
  | some .null => some 0
  | some (.num q) => if q.den = 1 then some q.num else none
  | some _ => none

/-- Decode a `float64` field: absent or `null` leaves `0`. -/
def dRatQ : Option Json → Option ℚ
  | none => some 0
  | some .null => some 0
  | some (.num q) => some q
  | some _ => none

/-- Decode a `bool` field: absent or `null` leaves `false`. -/
def dBoolB : Option Json → Option Bool
  | none => some false
  | some .null => some false
  | some (.bool b) => some b
  | some _ => none

/-- Decode a `[]string` field: absent or `null` leaves the nil slice;
a `null` element leaves a zero `""` element. -/
def dStringList : Option Json → Option (List String)
  | none => some []
  | some .null => some []
  | some (.arr xs) => xs.mapM fun j =>
      match j with
      | .str s => some s
      | .null => some ""
      | _ => none
  | some _ => none

/-- Decode a pointer-to-struct field with element decoder `dec`:
absent or `null` is the nil pointer `none`. -/
def dPtr (dec : Json → Option α) : Option Json → Option (Option α)
  | none => some none
  | some .null => some none
  | some j => (dec j).map some

/-- Decode a value-typed struct field with element decoder `dec`:
an absent member decodes like `null` (which `dec` maps to the zero
record). -/
def dField (dec : Json → Option α) (o : Option Json) : Option α :=
  dec (o.getD .null)

/-- Decode a slice of value-typed structs. -/
def dListOf (dec : Json → Option α) : Option Json → Option (List α)
  | none => some []
  | some .null => some []
  | some (.arr xs) => xs.mapM dec
  | some _ => none

/-- Decode a slice of pointers to structs (`null` elements become
`none`). -/
def dPtrListOf (dec : Json → Option α) : Option Json → Option (List (Option α))
  | none => some []
  | some .null => some []
  | some (.arr xs) => xs.mapM fun j =>
      match j with
      | .null => some none
      | _ => (dec j).map some
  | some _ => none

/-- Decode a `map[string]interface{}` field: the raw members are kept. -/
def dJsonMap : Option Json → Option (Option (List (String × Json)))
  | none => some none
  | some .null => some none
  | some (.obj members) => some (some members)
  | some _ => none

/-- Decode a JSON body into a pointer target (`Decode(&p)` with
`p : *T`): a `null` body leaves the nil pointer. -/
def decodePtrTop (dec : Json → Option α) (body : Json) : Option (Option α) :=
  match body with
  | .null => some none
  | j => (dec j).map some

/-! ## Typed response records (business_search.go, reviews.go) -/

/-- `CategoriesInfo` - category data on a business.  (`Alias` is named
`aliasName` here because `alias` is a Lean keyword.) -/
structure CategoriesInfo where
  aliasName : String
  title : String

/-- `Coords` - latitude and longitude data. -/
structure Coords where
  latitude : ℚ
  longitude : ℚ

/-- `Loc` - location information of a business. -/
structure Loc where
  address1 : String
  address2 : String
  address3 : String
  city : String
  country : String
  displayAddress : List String
  state : String
  zipCode : String
  crossStreets : String

/-- `BusinessMigratedError` - error body of an HTTP 301 response. -/
structure BusinessMigratedError where
  code : String
  description : String
  newBusinessID : String

/-- `GeneralBusinessInfo` - data about a business. -/
structure GeneralBusinessInfo where
  categories : List CategoriesInfo
  coordinates : Option Coords
  displayPhone : String
  distance : ℚ
  id : String
  aliasName : String
  imageURL : String
  isClosed : Bool
  location : Option Loc
  name : String
  price : String
  rating : ℚ
  reviewCount : ℤ
  url : String
  transactions : List String

/-- `OpenInfo` - when the business is open (`End`/`Start` are named
`endTime`/`startTime` here; `end` is a Lean keyword). -/
structure OpenInfo where
  isOvernight : Bool
  endTime : String
  day : ℤ
  startTime : String

/-- `HoursInfo` - hours data (`Open` is named `openPeriods` here; `open`
is a Lean keyword). -/
structure HoursInfo where
  hoursType : String
  openPeriods : List OpenInfo
  isOpenNow : Bool

/-- `DetailedBusinessInfo` - data from a Business Details request.  The
embedded `GeneralBusinessInfo` is the `general` field; its promoted
JSON members decode into it, except `transactions`, which the outer
`Transactions` field shadows. -/
structure DetailedBusinessInfo where
  general : GeneralBusinessInfo
  phone : String
  photos : List String
  hours : List HoursInfo
  transactions : List String
  isClaimed : Bool
  attributes : Option (List (String × Json))
  error : Option BusinessMigratedError

/-- `BusinessSearchData` - data from the Business Search route. -/
structure BusinessSearchData where
  total : ℤ
  businesses : List GeneralBusinessInfo
  region : Option (List (String × Json))

/-- `UserInfo` - user info inside a review. -/
structure UserInfo where
  id : String
  profileURL : String
  imageURL : String
  name : String

/-- `ReviewInfo` - one review.  `TimeCreated` is a `*time.Time` decoded
from an on-wire timestamp string; the string is kept as-is here, its
parsing being the codec collaborator's concern. -/
structure ReviewInfo where
  id : String
  rating : ℤ
  user : UserInfo
  text : String
  timeCreated : Option String
  url : String

/-- `ReviewError` - error body of an HTTP 301 review response. -/
structure ReviewError where
  code : String
  description : String
  newBusinessID : String

/-- `ReviewsData` - return data of a business review request.
`Reviews` is a `[]*ReviewInfo`, hence a list of options. -/
structure ReviewsData where
  total : ℤ
  possibleLanguages : List String
  reviews : List (Option ReviewInfo)
  error : Option ReviewError

/-! ## Record decoders -/

/-- Decode `CategoriesInfo` (members `alias`, `title`). -/
def decodeCategoriesInfo : Json → Option CategoriesInfo
  | .null => some ⟨"", ""⟩
  | .obj fs =>
    match dString (jLookup fs "alias"), dString (jLookup fs "title") with
    | some a, some t => some ⟨a, t⟩
    | _, _ => none
  | _ => none

/-- Decode `Coords` (members `latitude`, `longitude`). -/
def decodeCoords : Json → Option Coords
  | .null => some ⟨0, 0⟩
  | .obj fs =>
    match dRatQ (jLookup fs "latitude"), dRatQ (jLookup fs "longitude") with
    | some la, some lo => some ⟨la, lo⟩
    | _, _ => none
  | _ => none

/-- Decode `Loc`. -/
def decodeLoc : Json → Option Loc
  | .null => some ⟨"", "", "", "", "", [], "", "", ""⟩
  | .obj fs =>
    match dString (jLookup fs "address1"), dString (jLookup fs "address2"),
        dString (jLookup fs "address3"), dString (jLookup fs "city"),
        dString (jLookup fs "country"), dStringList (jLookup fs "display_address"),
        dString (jLookup fs "state"), dString (jLookup fs "zip_code"),
        dString (jLookup fs "cross_streets") with
    | some a1, some a2, some a3, some ci, some co, some da, some st, some zc, some cs =>
      some ⟨a1, a2, a3, ci, co, da, st, zc, cs⟩
    | _, _, _, _, _, _, _, _, _ => none
  | _ => none

/-- Decode `BusinessMigratedError` (members `code`, `description`,
`new_business_id`). -/
def decodeBusinessMigratedError : Json → Option BusinessMigratedError
  | .null => some ⟨"", "", ""⟩
  | .obj fs =>
    match dString (jLookup fs "code"), dString (jLookup fs "description"),
        dString (jLookup fs "new_business_id") with
    | some c, some d, some n => some ⟨c, d, n⟩
    | _, _, _ => none
  | _ => none

/-- Decode `GeneralBusinessInfo`. -/
def decodeGeneralBusinessInfo : Json → Option GeneralBusinessInfo
  | .null => some ⟨[], none, "", 0, "", "", "", false, none, "", "", 0, 0, "", []⟩
  | .obj fs =>
    match dListOf decodeCategoriesInfo (jLookup fs "categories"),
        dPtr decodeCoords (jLookup fs "coordinates"),
        dString (jLookup fs "display_phone"), dRatQ (jLookup fs "distance"),
        dString (jLookup fs "id"), dString (jLookup fs "alias"),
        dString (jLookup fs "image_url"), dBoolB (jLookup fs "is_closed"),
        dPtr decodeLoc (jLookup fs "location"), dString (jLookup fs "name"),
        dString (jLookup fs "price"), dRatQ (jLookup fs "rating"),
        dIntZ (jLookup fs "review_count"), dString (jLookup fs "url"),
        dStringList (jLookup fs "transactions") with
    | some ca, some co, some dp, some di, some id, some al, some iu, some ic,
        some lo, some na, some pr, some ra, some rc, some ur, some tr =>
      some ⟨ca, co, dp, di, id, al, iu, ic, lo, na, pr, ra, rc, ur, tr⟩
    | _, _, _, _, _, _, _, _, _, _, _, _, _, _, _ => none
  | _ => none

/-- Decode `OpenInfo`. -/
def decodeOpenInfo : Json → Option OpenInfo
  | .null => some ⟨false, "", 0, ""⟩
  | .obj fs =>
    match dBoolB (jLookup fs "is_overnight"), dString (jLookup fs "end"),
        dIntZ (jLookup fs "day"), dString (jLookup fs "start") with
    | some ov, some en, some da, some st => some ⟨ov, en, da, st⟩
    | _, _, _, _ => none
  | _ => none

/-- Decode `HoursInfo`. -/
def decodeHoursInfo : Json → Option HoursInfo
  | .null => some ⟨"", [], false⟩
  | .obj fs =>
    match dString (jLookup fs "hours_type"),
        dListOf decodeOpenInfo (jLookup fs "open"),
        dBoolB (jLookup fs "is_open_now") with
    | some ht, some op, some io => some ⟨ht, op, io⟩
    | _, _, _ => none
  | _ => none

/-- Decode `DetailedBusinessInfo`.  The promoted members of the embedded
`GeneralBusinessInfo` decode from the same object, except
`transactions`, which only fills the outer field (Go's shallower field
wins); the embedded `transactions` stays the zero slice. -/
def decodeDetailedBusinessInfo : Json → Option DetailedBusinessInfo
  | .null =>
    some ⟨⟨[], none, "", 0, "", "", "", false, none, "", "", 0, 0, "", []⟩,
      "", [], [], [], false, none, none⟩
  | .obj fs =>
    match decodeGeneralBusinessInfo (.obj (fs.filter fun p => foldCase p.1 ≠ "transactions")),
        dString (jLookup fs "phone"), dStringList (jLookup fs "photos"),
        dListOf decodeHoursInfo (jLookup fs "hours"),
        dStringList (jLookup fs "transactions"), dBoolB (jLookup fs "is_claimed"),
        dJsonMap (jLookup fs "attributes"),
        dPtr decodeBusinessMigratedError (jLookup fs "error") with
    | some ge, some ph, some po, some ho, some tr, some ic, some att, some er =>
      some ⟨ge, ph, po, ho, tr, ic, att, er⟩
    | _, _, _, _, _, _, _, _ => none
  | _ => none

/-- Decode `BusinessSearchData`. -/
def decodeBusinessSearchData : Json → Option BusinessSearchData
  | .null => some ⟨0, [], none⟩
  | .obj fs =>
    match dIntZ (jLookup fs "total"),
        dListOf decodeGeneralBusinessInfo (jLookup fs "businesses"),
        dJsonMap (jLookup fs "region") with
    | some tot, some bu, some re => some ⟨tot, bu, re⟩
    | _, _, _ => none
  | _ => none

/-- Decode `UserInfo`. -/
def decodeUserInfo : Json → Option UserInfo
  | .null => some ⟨"", "", "", ""⟩
  | .obj fs =>
    match dString (jLookup fs "id"), dString (jLookup fs "profile_url"),
        dString (jLookup fs "image_url"), dString (jLookup fs "name") with
    | some id, some pu, some iu, some na => some ⟨id, pu, iu, na⟩
    | _, _, _, _ => none
  | _ => none

/-- Decode a `*time.Time` field: the on-wire timestamp string is kept. -/
def dTimePtr : Option Json → Option (Option String)
  | none => some none
  | some .null => some none
  | some (.str s) => some (some s)
  | some _ => none

/-- Decode `ReviewInfo`. -/
def decodeReviewInfo : Json → Option ReviewInfo
  | .null => some ⟨"", 0, ⟨"", "", "", ""⟩, "", none, ""⟩
  | .obj fs =>
    match dString (jLookup fs "id"), dIntZ (jLookup fs "rating"),
        dField decodeUserInfo (jLookup fs "user"), dString (jLookup fs "text"),
        dTimePtr (jLookup fs "time_created"), dString (jLookup fs "url") with
    | some id, some ra, some us, some te, some tc, some ur =>
      some ⟨id, ra, us, te, tc, ur⟩
    | _, _, _, _, _, _ => none
  | _ => none

/-- Decode `ReviewError` (members `code`, `description`,
`new_business_id`). -/
def decodeReviewError : Json → Option ReviewError
  | .null => some ⟨"", "", ""⟩
  | .obj fs =>
    match dString (jLookup fs "code"), dString (jLookup fs "description"),
        dString (jLookup fs "new_business_id") with
    | some c, some d, some n => some ⟨c, d, n⟩
    | _, _, _ => none
  | _ => none

/-- Decode `ReviewsData`.  The `Error` field is populated exactly when
the body carries a matching non-null `error` member. -/
def decodeReviewsData : Json → Option ReviewsData
  | .null => some ⟨0, [], [], none⟩
  | .obj fs =>
    match dIntZ (jLookup fs "total"),
        dStringList (jLookup fs "possible_languages"),
        dPtrListOf decodeReviewInfo (jLookup fs "reviews"),
        dPtr decodeReviewError (jLookup fs "error") with
    | some tot, some pl, some rv, some er => some ⟨tot, pl, rv, er⟩
    | _, _, _, _ => none
  | _ => none

/-! ## Request construction and response handling (yelp.go) -/

/-- A cancellation/deadline context, opaque to this library. -/
def GoContext := Nat

/-- The part of an `http.Request` this library sets: method, URL, the
`Authorization` header, and the attached context (`none` models the
default background context, with which no cancellation is possible). -/
structure Request where
  method : String
  url : String
  authHeader : Option String
  ctx : Option GoContext

/-- `http.NewRequest`: a fresh request carrying no context beyond the
background default. -/
def newRequest (method url : String) : Request :=
  { method := method, url := url, authHeader := none, ctx := none }

/-- `http.Request.WithContext`: returns a copy of the request with the
given context attached; the receiver is unchanged. -/
def Request.withContext (r : Request) (c : GoContext) : Request :=
  { r with ctx := some c }

/-- Endpoint constants of `yelp.go`. -/
def baseURL : String := "https://api.yelp.com/v3"

def busDetails : String := "/businesses"

def busSearch : String := busDetails ++ "/search"

def phoneSearch : String := busSearch ++ "/phone"

def reviewSearch : String := "/reviews"

/-- `getRequest` - builds the authenticated request.  Mirrors the
source faithfully: the copy returned by `req.WithContext(ctx)` is
discarded (its result is not assigned), and the original request is
returned. -/
def getRequest (apiKey : String) (ctx : Option GoContext) (method url : String) :
    Request :=
  let req := newRequest method url
  let req := { req with authHeader := some ("Bearer " ++ apiKey) }
  match ctx with
  | some c =>
    let _ := req.withContext c
    req
  | none => req

/-- `SearchBusinessResponse` - the request the search operation hands to
the transport, or the validation error raised before any network call. -/
def SearchBusinessResponseRequest (apiKey : String) (ctx : Option GoContext)
    (bus : BusinessSearchParams) : Except String Request :=
  match Params bus with
  | .error err => .error err
  | .ok params =>
    .ok (getRequest apiKey ctx "GET" (baseURL ++ busSearch ++ "?" ++ params))

/-- `SearchBusinessesByPhoneResponse` - the request the phone-search
operation hands to the transport, or the validation error raised before
any network call. -/
def SearchBusinessesByPhoneResponseRequest (apiKey : String) (ctx : Option GoContext)
    (phoneNumber : String) : Except String Request :=
  if goTrimSpace phoneNumber = "" then .error "phone number is required"
  else
    .ok (getRequest apiKey ctx "GET"
      (baseURL ++ phoneSearch ++ "?phone=" ++ queryEscape phoneNumber))

/-- The transport's completed answer: status code, status text
(`resp.Status`, e.g. "404 Not Found"), and the JSON body. -/
structure HTTPResponse where
  statusCode : Nat
  status : String
  body : Json

/-- Error message standing for whatever message `encoding/json` produces
on a malformed body; the claims never inspect it. -/
def jsonDecodeErrorMsg : String := "json decode error"

/-- `SearchBusinessWithContext`, response-handling half: a non-200
status is surfaced as an error carrying the status text; otherwise the
body decodes into `*BusinessSearchData`. -/
def SearchBusinessWithContext_handle (resp : HTTPResponse) :
    Except String (Option BusinessSearchData) :=
  if resp.statusCode ≠ 200 then .error resp.status
  else match decodePtrTop decodeBusinessSearchData resp.body with
    | some b => .ok b
    | none => .error jsonDecodeErrorMsg

/-- `SearchBusinessDetailsWithLocale`, response-handling half. -/
def SearchBusinessDetailsWithLocale_handle (resp : HTTPResponse) :
    Except String (Option DetailedBusinessInfo) :=
  if resp.statusCode ≠ 200 then .error resp.status
  else match decodePtrTop decodeDetailedBusinessInfo resp.body with
    | some b => .ok b
    | none => .error jsonDecodeErrorMsg

/-- `SearchBusinessesByPhoneWithContext`, response-handling half. -/
def SearchBusinessesByPhoneWithContext_handle (resp : HTTPResponse) :
    Except String (Option BusinessSearchData) :=
  if resp.statusCode ≠ 200 then .error resp.status
  else match decodePtrTop decodeBusinessSearchData resp.body with
    | some b => .ok b
    | none => .error jsonDecodeErrorMsg

/-- `SearchBusinessReviewsWithLocale`, response-handling half: both 200
and 301 (moved permanently) are decodable; any other status is an error
carrying the status text. -/
def SearchBusinessReviewsWithLocale_handle (resp : HTTPResponse) :
    Except String (Option ReviewsData) :=
  if resp.statusCode ≠ 200 ∧ resp.statusCode ≠ 301 then .error resp.status
  else match decodePtrTop decodeReviewsData resp.body with
    | some rd => .ok rd
    | none => .error jsonDecodeErrorMsg

/-! ## Helper lemmas -/

theorem data_append (a b : String) : (a ++ b).data = a.data ++ b.data := rfl

theorem data_empty : ("" : String).data = [] := rfl

theorem eq_of_data_eq {a b : String} (h : a.data = b.data) : a = b := by
  cases a; cases b; exact congrArg String.mk h

/-- The URL of a built request is the URL given to `getRequest`,
whether or not a context was supplied. -/
theorem getRequest_url (key : String) (ctx : Option GoContext) (m u : String) :
    (getRequest key ctx m u).url = u := by
  rcases ctx with _ | c <;> rfl

/-- The method and authorization header of a built request. -/
theorem getRequest_method_auth (key : String) (ctx : Option GoContext) (m u : String) :
    (getRequest key ctx m u).method = m ∧
      (getRequest key ctx m u).authHeader = some ("Bearer " ++ key) := by
  rcases ctx with _ | c <;> exact ⟨rfl, rfl⟩

/-- Whenever `Params` succeeds, its output starts with the string
produced by `getLocOrLatLong`. -/
theorem params_ok_locString_leads (bs : BusinessSearchParams) (L : String)
    (hL : getLocOrLatLong bs = .ok L) (s : String) (hs : Params bs = .ok s) :
    L.data <+: s.data := by
  unfold Params at hs
  rw [hL] at hs
  rcases hOp : getOpenAtOrNow bs with e | oc <;> rw [hOp] at hs
  · simp at hs
  · simp only [Except.ok.injEq] at hs
    subst hs
    split <;>
      · simp only [data_append, List.append_assoc]
        exact List.prefix_append _ _

/-- When a body object carries no member matching `error`, a decoded
`ReviewsData` has a nil `Error` field. -/
theorem decodeReviewsData_error_none (members : List (String × Json)) (rd : ReviewsData)
    (hnone : jLookup members "error" = none)
    (h : decodeReviewsData (.obj members) = some rd) : rd.error = none := by
  simp only [decodeReviewsData] at h
  rw [hnone] at h
  rcases h1 : dIntZ (jLookup members "total") with _ | tot <;> rw [h1] at h
  · simp at h
  · rcases h2 : dStringList (jLookup members "possible_languages") with _ | pl <;>
      rw [h2] at h
    · simp at h
    · rcases h3 : dPtrListOf decodeReviewInfo (jLookup members "reviews") with _ | rv <;>
        rw [h3] at h
      · simp at h
      · simp only [dPtr] at h
        injection h with h
        rw [← h]

/-! ## Claim theorems -/

/-- Claim C7: for a record with only location "Austin, TX" and term
"food", `Params` returns exactly `location=Austin%2C+TX&term=food`
(URL-escaped values, `&`-joined, no leading `?`); and a fully-populated
record renders every clause in the fixed source order
location/lat-long, term, radius, categories, locale, limit, offset,
sort_by, price, open clause, attributes. -/
theorem params_fixed_order_rendering :
    Params { location := some "Austin, TX", term := some "food" } =
      .ok "location=Austin%2C+TX&term=food" ∧
    Params { location := some "Austin, TX", latitude := some 30,
             longitude := some (-97), term := some "food", radius := some 40000,
             categories := some "bars,french", locale := some "en_US",
             limit := some 20, offset := some 5, sortBy := some "rating",
             price := some "1,2", openNow := some true,
             attributes := some "hot_and_new" } =
      .ok ("location=Austin%2C+TX&latitude=30.000000&longitude=-97.000000&term=food" ++
        "&radius=40000&categories=bars%2Cfrench&locale=en_US&limit=20&offset=5" ++
        "&sort_by=rating&price=1%2C2&open_now=true&attributes=hot_and_new") :=
  ⟨rfl, rfl⟩

/-- Claim C8: for a record with latitude 30.0 and longitude -97.0 and no
location, the query string contains `latitude=30.000000&longitude=-97.000000`
(six-decimal fixed-point) and no `location=` clause. -/
theorem params_latlong_rendering :
    Params { latitude := some 30, longitude := some (-97) } =
      .ok "latitude=30.000000&longitude=-97.000000" ∧
    ("latitude=30.000000&longitude=-97.000000").data <:+:
      ("latitude=30.000000&longitude=-97.000000").data ∧
    ¬ ("location=").data <:+: ("latitude=30.000000&longitude=-97.000000").data :=
  ⟨rfl, List.infix_rfl, by decide⟩

/-- Claim C4 (code bug): `getRequest` calls `req.WithContext(ctx)` but
discards the returned copy, so the request handed back carries no
context even when one was supplied — the copy alone would have carried
it — and with no context the request likewise carries none. -/
theorem getRequest_context_dropped (key : String) (c : GoContext) (m u : String) :
    (getRequest key (some c) m u).ctx = none ∧
    (getRequest key none m u).ctx = none ∧
    ((newRequest m u).withContext c).ctx = some c :=
  ⟨rfl, rfl, rfl⟩

/-- Claim C5: a phone number that is empty after trimming whitespace
fails with the "phone number required" error before any request is
built; a non-blank phone number yields the phone-search request with
the phone number URL-escaped. -/
theorem phone_search_validation (key : String) (ctx : Option GoContext) (phone : String) :
    (goTrimSpace phone = "" →
      SearchBusinessesByPhoneResponseRequest key ctx phone =
        .error "phone number is required") ∧
    (goTrimSpace phone ≠ "" →
      SearchBusinessesByPhoneResponseRequest key ctx phone =
        .ok (getRequest key ctx "GET"
          (baseURL ++ phoneSearch ++ "?phone=" ++ queryEscape phone)) ∧
      (getRequest key ctx "GET"
          (baseURL ++ phoneSearch ++ "?phone=" ++ queryEscape phone)).url =
        "https://api.yelp.com/v3/businesses/search/phone?phone=" ++ queryEscape phone) := by
  constructor
  · intro h
    unfold SearchBusinessesByPhoneResponseRequest
    rw [if_pos h]
  · intro h
    refine ⟨?_, ?_⟩
    · unfold SearchBusinessesByPhoneResponseRequest
      rw [if_neg h]
    · rw [getRequest_url]
      rfl

/-- Witness for claim C5 at a whitespace-only and at a non-blank phone
number. -/
theorem phone_search_validation_witness :
    SearchBusinessesByPhoneResponseRequest "key" none "  " =
      .error "phone number is required" ∧
    SearchBusinessesByPhoneResponseRequest "key" none "+15551234567" =
      .ok (getRequest "key" none "GET"
        (baseURL ++ phoneSearch ++ "?phone=" ++ queryEscape "+15551234567")) :=
  ⟨(phone_search_validation "key" none "  ").1 rfl,
   ((phone_search_validation "key" none "+15551234567").2 (by decide)).1⟩

/-- Claim C6: for the search, details, and phone-search operations,
every response with a non-200 status is surfaced as an error carrying
the status text, with no result returned. -/
theorem non200_status_surfaced (resp : HTTPResponse) (h : resp.statusCode ≠ 200) :
    SearchBusinessWithContext_handle resp = .error resp.status ∧
    SearchBusinessDetailsWithLocale_handle resp = .error resp.status ∧
    SearchBusinessesByPhoneWithContext_handle resp = .error resp.status := by
  refine ⟨?_, ?_, ?_⟩ <;>
    · simp only [SearchBusinessWithContext_handle, SearchBusinessDetailsWithLocale_handle,
        SearchBusinessesByPhoneWithContext_handle]
      rw [if_pos h]

/-- Witness for claim C6 at a concrete 404 response. -/
theorem non200_status_surfaced_witness :
    SearchBusinessWithContext_handle ⟨404, "404 Not Found", Json.null⟩ =
      .error "404 Not Found" ∧
    SearchBusinessDetailsWithLocale_handle ⟨404, "404 Not Found", Json.null⟩ =
      .error "404 Not Found" ∧
    SearchBusinessesByPhoneWithContext_handle ⟨404, "404 Not Found", Json.null⟩ =
      .error "404 Not Found" :=
  non200_status_surfaced ⟨404, "404 Not Found", Json.null⟩ (by decide)

/-- Claim C1 counterexample: a record holding only a latitude has
neither a location string nor the complete (latitude, longitude) pair,
yet `Params` succeeds with the empty query string instead of failing
with the missing-location error. -/
theorem params_half_pair_no_location_cex :
    ({ latitude := some 30 } : BusinessSearchParams).location = none ∧
    ({ latitude := some 30 } : BusinessSearchParams).longitude = none ∧
    Params { latitude := some 30 } = .ok "" :=
  ⟨rfl, rfl, rfl⟩

/-- Claim C1 (amended): `Params` fails with the missing-required-location
validation error exactly when location, latitude and longitude are all
absent; a record lacking location but holding one half of the coordinate
pair passes the location check (`getLocOrLatLong` returns an empty
clause without error), so `Params` never raises the missing-location
error for it. -/
theorem params_missing_location_iff (bs : BusinessSearchParams) :
    (Params bs =
        .error "error missing required fields: Location or (Latitude and Longitude)" ↔
      bs.location = none ∧ bs.latitude = none ∧ bs.longitude = none) ∧
    (bs.location = none → bs.latitude.isSome ≠ bs.longitude.isSome →
      getLocOrLatLong bs = .ok "") := by
  obtain ⟨tm, loc, lat, lng, rad, cat, lcl, lim, off, srt, prc, opn, opa, att⟩ := bs
  constructor
  · constructor
    · intro h
      rcases loc with _ | l <;> rcases lat with _ | la <;> rcases lng with _ | lo <;>
        rcases opn with _ | b <;> rcases opa with _ | n <;>
          first
            | exact ⟨rfl, rfl, rfl⟩
            | exact Except.noConfusion h
            | exact absurd (Except.error.inj h) (by decide)
    · rintro ⟨h1, h2, h3⟩
      obtain rfl : loc = none := h1
      obtain rfl : lat = none := h2
      obtain rfl : lng = none := h3
      rfl
  · intro h1 hx
    obtain rfl : loc = none := h1
    rcases lat with _ | la <;> rcases lng with _ | lo
    · exact absurd rfl hx
    · rfl
    · rfl
    · exact absurd rfl hx

/-- Witness for claim C1: the empty record fails with the
missing-location error, and a record holding only a latitude passes the
location check with an empty clause. -/
theorem params_missing_location_iff_witness :
    Params ({} : BusinessSearchParams) =
      .error "error missing required fields: Location or (Latitude and Longitude)" ∧
    getLocOrLatLong ({ latitude := some 30 } : BusinessSearchParams) = .ok "" :=
  ⟨(params_missing_location_iff {}).1.mpr ⟨rfl, rfl, rfl⟩,
   (params_missing_location_iff { latitude := some 30 }).2 rfl (by decide)⟩

/-- Claim C2 counterexample: with open-now and open-at both set but no
location fields, `Params` fails with the missing-location error, not the
mutual-exclusivity error. -/
theorem params_both_open_masked_cex :
    Params { openNow := some true, openAt := some 0 } =
      .error "error missing required fields: Location or (Latitude and Longitude)" ∧
    "error missing required fields: Location or (Latitude and Longitude)" ≠
      "cannot set both open_at and open_now parameters" :=
  ⟨rfl, by decide⟩

/-- Claim C2 (amended): for every record with both open-now and open-at
set whose location requirement is met (location, latitude and longitude
not all absent), `Params` fails with the mutual-exclusivity validation
error and returns no query string. -/
theorem params_open_mutual_exclusion (bs : BusinessSearchParams)
    (hn : bs.openNow.isSome = true) (ha : bs.openAt.isSome = true)
    (hloc : ¬ (bs.location = none ∧ bs.latitude = none ∧ bs.longitude = none)) :
    Params bs = .error "cannot set both open_at and open_now parameters" := by
  obtain ⟨tm, loc, lat, lng, rad, cat, lcl, lim, off, srt, prc, opn, opa, att⟩ := bs
  obtain ⟨b, rfl⟩ : ∃ b, opn = some b := Option.isSome_iff_exists.mp hn
  obtain ⟨n, rfl⟩ : ∃ n, opa = some n := Option.isSome_iff_exists.mp ha
  rcases loc with _ | l <;> rcases lat with _ | la <;> rcases lng with _ | lo <;>
    first
      | rfl
      | exact absurd ⟨rfl, rfl, rfl⟩ hloc

/-- Witness for claim C2 at a record with a location and both open
fields set. -/
theorem params_open_mutual_exclusion_witness :
    Params { location := some "Austin, TX", openNow := some true, openAt := some 1080 } =
      .error "cannot set both open_at and open_now parameters" :=
  params_open_mutual_exclusion
    { location := some "Austin, TX", openNow := some true, openAt := some 1080 }
    rfl rfl (by decide)

/-- Claim C3 counterexample: decoding a 200 reviews response whose body
carries an `error` member with `new_business_id` populates the
migration-error field, although the status is not 301 — population is
decided by the body, not by the status code. -/
theorem reviews_decode_200_populates_cex :
    SearchBusinessReviewsWithLocale_handle ⟨200, "200 OK",
        Json.obj [("error", Json.obj [("new_business_id", Json.str "abc")])]⟩ =
      .ok (some ⟨0, [], [], some ⟨"", "", "abc"⟩⟩) :=
  rfl

/-- Claim C3 (amended): decoding a 301 reviews response whose body's
`error` member carries `new_business_id` yields a record whose
migration-error field holds that identifier; and a 200 response whose
body has no `error` member never populates the migration-error field —
population depends on the body alone, not on the status code. -/
theorem reviews_migration_error_population :
    (∀ st c d id, SearchBusinessReviewsWithLocale_handle ⟨301, st,
        Json.obj [("error", Json.obj [("code", Json.str c), ("description", Json.str d),
          ("new_business_id", Json.str id)])]⟩ =
      .ok (some ⟨0, [], [], some ⟨c, d, id⟩⟩)) ∧
    (∀ st members rd, jLookup members "error" = none →
      SearchBusinessReviewsWithLocale_handle ⟨200, st, Json.obj members⟩ = .ok (some rd) →
      rd.error = none) := by
  constructor
  · intro st c d id
    rfl
  · intro st members rd hnone h
    have hstep : SearchBusinessReviewsWithLocale_handle ⟨200, st, Json.obj members⟩ =
        (match (decodeReviewsData (Json.obj members)).map some with
          | some b => Except.ok b
          | none => Except.error jsonDecodeErrorMsg) := rfl
    rw [hstep] at h
    rcases hd : decodeReviewsData (Json.obj members) with _ | rec <;> rw [hd] at h
    · simp at h
    · simp at h
      subst h
      exact decodeReviewsData_error_none members rec hnone hd

/-- Witness for claim C3 at a concrete 301 body and a concrete
error-free 200 body. -/
theorem reviews_migration_error_population_witness :
    SearchBusinessReviewsWithLocale_handle ⟨301, "301 Moved Permanently",
        Json.obj [("error", Json.obj [("code", Json.str "BUSINESS_MIGRATED"),
          ("description", Json.str "moved"),
          ("new_business_id", Json.str "new-id")])]⟩ =
      .ok (some ⟨0, [], [], some ⟨"BUSINESS_MIGRATED", "moved", "new-id"⟩⟩) ∧
    (⟨0, [], [], none⟩ : ReviewsData).error = none :=
  ⟨reviews_migration_error_population.1 "301 Moved Permanently"
      "BUSINESS_MIGRATED" "moved" "new-id",
   reviews_migration_error_population.2 "200 OK" [] ⟨0, [], [], none⟩ rfl rfl⟩

/-- Claim C9: with location, latitude and longitude all present,
`getLocOrLatLong` emits both the location clause and the lat/long
clause, the location clause first, separated by `&`, and every
successful `Params` output starts with exactly that; neither form
overrides the other. -/
theorem params_emits_both_location_forms (bs : BusinessSearchParams)
    (l : String) (la lo : ℚ) (hl : bs.location = some l)
    (ha : bs.latitude = some la) (ho : bs.longitude = some lo) :
    getLocOrLatLong bs =
      .ok ("location=" ++ queryEscape l ++ "&" ++
        ("latitude=" ++ fmtFloat6 la ++ "&longitude=" ++ fmtFloat6 lo)) ∧
    ∀ s, Params bs = .ok s →
      ("location=" ++ queryEscape l ++ "&" ++
        ("latitude=" ++ fmtFloat6 la ++ "&longitude=" ++ fmtFloat6 lo)).data <+: s.data := by
  have hpos : (("" ++ "location=" : String) ++ queryEscape l).length > 0 := by
    rw [String.length_append]
    have h9 : ("" ++ "location=" : String).length = 9 := rfl
    omega
  obtain ⟨tm, loc, lat, lng, rad, cat, lcl, lim, off, srt, prc, opn, opa, att⟩ := bs
  obtain rfl : loc = some l := hl
  obtain rfl : lat = some la := ha
  obtain rfl : lng = some lo := ho
  have hLoc : getLocOrLatLong
      ⟨tm, some l, some la, some lo, rad, cat, lcl, lim, off, srt, prc, opn, opa, att⟩ =
      .ok ("location=" ++ queryEscape l ++ "&" ++
        ("latitude=" ++ fmtFloat6 la ++ "&longitude=" ++ fmtFloat6 lo)) := by
    show Except.ok ((if ("" ++ "location=" ++ queryEscape l).length > 0
        then "" ++ "location=" ++ queryEscape l ++ "&"
        else "" ++ "location=" ++ queryEscape l) ++
        "latitude=" ++ fmtFloat6 la ++ "&longitude=" ++ fmtFloat6 lo) = _
    rw [if_pos hpos]
    exact congrArg Except.ok (eq_of_data_eq (by
      simp [data_append, data_empty, List.append_assoc]))
  exact ⟨hLoc, fun s hs => params_ok_locString_leads _ _ hLoc s hs⟩

/-- Witness for claim C9 at a concrete record holding all three
location fields. -/
theorem params_emits_both_location_forms_witness :
    ("location=" ++ queryEscape "Austin" ++ "&" ++
      ("latitude=" ++ fmtFloat6 30 ++ "&longitude=" ++ fmtFloat6 (-97))).data <+:
      ("location=Austin&latitude=30.000000&longitude=-97.000000" : String).data :=
  (params_emits_both_location_forms
    { location := some "Austin", latitude := some 30, longitude := some (-97) }
    "Austin" 30 (-97) rfl rfl rfl).2
    "location=Austin&latitude=30.000000&longitude=-97.000000" rfl

/-- Claim C10 counterexample: a record with a location and exactly one
coordinate need not make `Params` succeed — with open-now and open-at
both set it fails, so success is not guaranteed by the location fields
alone. -/
theorem params_half_pair_open_conflict_cex :
    ({ location := some "Austin", latitude := some 30, openNow := some true,
       openAt := some 0 } : BusinessSearchParams).location.isSome = true ∧
    ({ location := some "Austin", latitude := some 30, openNow := some true,
       openAt := some 0 } : BusinessSearchParams).longitude = none ∧
    Params { location := some "Austin", latitude := some 30, openNow := some true,
             openAt := some 0 } =
      .error "cannot set both open_at and open_now parameters" :=
  ⟨rfl, rfl, rfl⟩

/-- Claim C10 (amended): with a location present and exactly one of
latitude/longitude present, the location check succeeds emitting only
the location clause, and `Params` behaves exactly as if the half pair
were absent — the half-specified coordinate is silently dropped, never
partially emitted and never a location error. -/
theorem params_half_pair_dropped (bs : BusinessSearchParams) (l : String)
    (hl : bs.location = some l)
    (hx : bs.latitude.isSome ≠ bs.longitude.isSome) :
    getLocOrLatLong bs = .ok ("location=" ++ queryEscape l) ∧
    Params bs = Params { bs with latitude := none, longitude := none } := by
  obtain ⟨tm, loc, lat, lng, rad, cat, lcl, lim, off, srt, prc, opn, opa, att⟩ := bs
  obtain rfl : loc = some l := hl
  rcases lat with _ | la <;> rcases lng with _ | lo
  · exact absurd rfl hx
  · exact ⟨rfl, rfl⟩
  · exact ⟨rfl, rfl⟩
  · exact absurd rfl hx

/-- Witness for claim C10 at a record holding a location and only a
latitude. -/
theorem params_half_pair_dropped_witness :
    getLocOrLatLong { location := some "Austin", latitude := some 30 } =
      .ok ("location=" ++ queryEscape "Austin") ∧
    Params { location := some "Austin", latitude := some 30 } =
      Params { location := some "Austin" } :=
  params_half_pair_dropped { location := some "Austin", latitude := some 30 }
    "Austin" rfl (by decide)

end YFusion
